import Mathlib

/-!
Shallow embedding of `src/index.js` of rokob/rollbar-graphql: a GraphQL
gateway over the Rollbar REST API.  JavaScript values are modelled by the
inductive type `JsVal` (numbers as integers; the claims never involve
fractional numbers or NaN).  Promises and the process-wide cache of
`maybeGet` are modelled by explicit state passing (`MGState`): a promise is
identified by the index of the fetch that created it, and the cache maps
JS property-key strings to promise ids.  The `.then`-callback of `maybeGet`
(the response unwrapper) is the pure function `unwrapLog`; a thrown
`TypeError` (JS `.filter` on a non-array) is an `Except.error`.
-/

/-- Model of a JavaScript value as it appears in the fetched JSON and in the
resolver code: `undef` is `undefined`, `num` holds integers. -/
inductive JsVal where
  | null : JsVal
  | undef : JsVal
  | bool : Bool → JsVal
  | num : Int → JsVal
  | str : String → JsVal
  | arr : List JsVal → JsVal
  | obj : List (String × JsVal) → JsVal

/-- JavaScript truthiness of a value (arrays and objects are always truthy,
`0`, `""`, `null` and `undefined` are falsy). -/
def truthy : JsVal → Bool
  | JsVal.null => false
  | JsVal.undef => false
  | JsVal.bool b => b
  | JsVal.num n => !(n == 0)
  | JsVal.str s => !(s == "")
  | JsVal.arr _ => true
  | JsVal.obj _ => true

/-- JavaScript property access `a[p]`: field lookup on an object, numeric
index on an array, `undefined` otherwise (and for a missing field). -/
def jsIndex : JsVal → String → JsVal
  | JsVal.obj fs, p =>
      match fs.find? (fun kv => kv.1 == p) with
      | some kv => kv.2
      | none => JsVal.undef
  | JsVal.arr xs, p =>
      match p.toNat? with
      | some i => (xs.get? i).getD JsVal.undef
      | none => JsVal.undef
  | _, _ => JsVal.undef

/-- JavaScript `a && b`: returns `b` when `a` is truthy, else `a`. -/
def jsAnd (a b : JsVal) : JsVal :=
  if truthy a then b else a

mutual

/-- JavaScript string coercion as used inside template literals such as
`user/${user_id}` (arrays join their elements with commas). -/
def jsTemplate : JsVal → String
  | JsVal.null => "null"
  | JsVal.undef => "undefined"
  | JsVal.bool b => if b then "true" else "false"
  | JsVal.num n => toString n
  | JsVal.str s => s
  | JsVal.arr xs => jsTemplateList xs
  | JsVal.obj _ => "[object Object]"

/-- Comma-join of the coercions of a list of values (`Array.prototype.toString`). -/
def jsTemplateList : List JsVal → String
  | [] => ""
  | [x] => jsTemplate x
  | x :: y :: rest => jsTemplate x ++ "," ++ jsTemplateList (y :: rest)

end

/-- Truthiness of an optional string argument (`undefined` and `""` are falsy),
used for the `path` and `query` parameters of the source. -/
def strTruthy : Option String → Bool
  | none => false
  | some s => !(s == "")

/-- The dotted-path reduction of `maybeGet`:
`path.split(.).reduce((a, p) => (a && a[p]), data.result)`, expressed on the
list of segments. -/
def segsReduce (segs : List String) (res : JsVal) : JsVal :=
  segs.foldl (fun a q => if truthy a then jsIndex a q else a) res

/-- Split a character list at every dot (the recursion behind JavaScript
`p.split(".")`): `""` gives one empty segment, consecutive or trailing dots
give empty segments. -/
def splitDotAux : List Char → List (List Char)
  | [] => [[]]
  | c :: rest =>
      match splitDotAux rest with
      | [] => [[]]
      | seg :: segs =>
          if c == '.' then [] :: seg :: segs else (c :: seg) :: segs

/-- JavaScript `p.split(".")` on a string. -/
def splitDot (p : String) : List String :=
  (splitDotAux p.data).map (fun l => String.mk l)

/-- `pathReduce p res` resolves the dotted field path `p` into `res` exactly as
the source does with `p.split(".").reduce((a, p) => (a && a[p]), result)`. -/
def pathReduce (p : String) (res : JsVal) : JsVal :=
  segsReduce (splitDot p) res

/-- JavaScript `result.filter(f)`: keeps the entries on which `f` returns a
truthy value; calling it on a non-array throws a `TypeError`. -/
def jsFilter (f : JsVal → JsVal) : JsVal → Except String JsVal
  | JsVal.arr xs => Except.ok (JsVal.arr (xs.filter (fun x => truthy (f x))))
  | _ => Except.error "TypeError: filter is not a function"

/-- The body of the `.then(data => ...)` callback of `maybeGet` (the response
unwrapper), together with the list of envelopes passed to `console.error`:
if `data.err` is truthy the envelope is logged and `null` returned; otherwise
the optional dotted path is resolved into `data.result` and the optional
filter applied as in the source (`if (!filter || !result) return result`). -/
def unwrapLog (path : Option String) (filter : Option (JsVal → JsVal))
    (data : JsVal) : Except String JsVal × List JsVal :=
  if truthy (jsIndex data "err") then
    (Except.ok JsVal.null, [data])
  else if strTruthy path = false then
    match filter with
    | none => (Except.ok (jsIndex data "result"), [])
    | some f => (jsFilter f (jsIndex data "result"), [])
  else
    let result := pathReduce (path.getD "") (jsIndex data "result")
    match filter with
    | none => (Except.ok result, [])
    | some f =>
        if truthy result then (jsFilter f result, [])
        else (Except.ok result, [])

/-- The value part of the unwrapper (`Except.error` models a thrown
`TypeError`; an upstream `err` envelope becomes `Except.ok JsVal.null`). -/
def unwrap (path : Option String) (filter : Option (JsVal → JsVal))
    (data : JsVal) : Except String JsVal :=
  (unwrapLog path filter data).1

/-- The data-quality filter passed by the `users` resolver:
`(u) => u.username && u.email`. -/
def usersFilter (u : JsVal) : JsVal :=
  jsAnd (jsIndex u "username") (jsIndex u "email")

/-- The per-request context produced by `contextFn`: the two access tokens. -/
structure Ctx where
  accountToken : String
  projectToken : String

/-- The base address of the upstream REST API. -/
def BASE_URL : String := "https://api.rollbar.com/api/1/"

/-- `buildAccountUrl(ctx, endpoint, query)` of the source: the optional query
fragment is appended after `&` only when it is truthy. -/
def buildAccountUrl (ctx : Ctx) (endpoint : String) (query : Option String) :
    String :=
  let q := if strTruthy query then "&" ++ query.getD "" else ""
  BASE_URL ++ endpoint ++ "?access_token=" ++ ctx.accountToken ++ q

/-- `buildProjectUrl(ctx, endpoint, query)` of the source. -/
def buildProjectUrl (ctx : Ctx) (endpoint : String) (query : Option String) :
    String :=
  let q := if strTruthy query then "&" ++ query.getD "" else ""
  BASE_URL ++ endpoint ++ "?access_token=" ++ ctx.projectToken ++ q

/-- Clamp of one slice index into `[0, len]`, negative indices counting from
the end (the index arithmetic of `Array.prototype.slice`). -/
def jsClamp (len i : Int) : Int :=
  if i < 0 then max (len + i) 0 else min i len

/-- JavaScript `Array.prototype.slice(start, stop)`: negative indices count
from the end, and both indices are clamped into `[0, length]`; an absent
`stop` means the length. -/
def jsSlice {α : Type} (xs : List α) (start : Int) (stop : Option Int) :
    List α :=
  (xs.take (jsClamp xs.length (stop.getD xs.length)).toNat).drop
    (jsClamp xs.length start).toNat

/-- The `.then(data => ...)` callback of `trunc({first, skip}, promise)`,
applied to the resolved list (`none` models a `null`/`undefined` data value,
which passes through unchanged).  `skip = skip || -1` maps a given `skip` of
`0` to `-1`, exactly as JavaScript `||` does on the falsy number `0`. -/
def trunc {α : Type} (first skip : Option Int) (data : Option (List α)) :
    Option (List α) :=
  match data with
  | none => none
  | some xs =>
    match first, skip with
    | none, none => some xs
    | none, some k => some (jsSlice xs (k + 1) none)
    | some f, sk =>
        let k : Int := match sk with
          | some k => if k == 0 then -1 else k
          | none => -1
        some (jsSlice xs (k + 1) (some (k + 1 + f)))

/-- The JavaScript property key produced by `cache[[url, path]]`: the array
`[url, path]` is coerced to the string `url + "," + path`, an `undefined`
path rendering as the empty string. -/
def cacheKey (url : String) (path : Option String) : String :=
  url ++ "," ++ path.getD ""

/-- State of the `maybeGet` layer: the module-level `cache` object (property
key to promise id) and the ordered log of upstream fetches issued; a promise
id is the index of the fetch that created it. -/
structure MGState where
  cache : List (String × Nat)
  fetches : List String

/-- The state before any resolver has run (`let cache = {}`). -/
def initState : MGState := ⟨[], []⟩

/-- `maybeGet(url, path, _filter)` as a state transformer returning the
promise id: with caching on, a hit on `cache[[url, path]]` returns the stored
promise without a fetch; otherwise a fetch of `url` is issued and, with
caching on, the still-pending promise is stored under the key before the
function returns. -/
def maybeGet (cacheOn : Bool) (url : String) (path : Option String)
    (s : MGState) : Nat × MGState :=
  match cacheOn, s.cache.lookup (cacheKey url path) with
  | true, some pid => (pid, s)
  | true, none =>
      (s.fetches.length,
        ⟨(cacheKey url path, s.fetches.length) :: s.cache,
          s.fetches ++ [url]⟩)
  | false, _ =>
      (s.fetches.length, ⟨s.cache, s.fetches ++ [url]⟩)

/-- Truthiness of an optional integer argument (`undefined` and `0` are
falsy), as tested by `if (!id && !counter)` in the `item` resolver. -/
def intOptTruthy : Option Int → Bool
  | none => false
  | some n => !(n == 0)

/-- The `Query.item` resolver: its thrown error or the URL it fetches, paired
with the list of network calls it issues. -/
def itemResolve (ctx : Ctx) (id counter : Option Int) :
    Except String String × List String :=
  if !(intOptTruthy id) && !(intOptTruthy counter) then
    (Except.error "Must specify id or counter", [])
  else if intOptTruthy id then
    let u := buildProjectUrl ctx ("item/" ++ toString (id.getD 0)) none
    (Except.ok u, [u])
  else
    let u :=
      buildProjectUrl ctx ("item_by_counter/" ++ toString (counter.getD 0)) none
    (Except.ok u, [u])

/-- The unwrapper for a `maybeGet(url)` call with no path and no filter:
`null` on an `err` envelope, `data.result` otherwise.  `unwrapLog` reduces to
it on such calls (`unwrap_none_none`). -/
def unwrap0 (data : JsVal) : JsVal :=
  if truthy (jsIndex data "err") then JsVal.null else jsIndex data "result"

/-- The primary URL fetched by the `Team.users` resolver. -/
def teamUsersUrl (ctx : Ctx) (tid : Int) : String :=
  buildAccountUrl ctx ("team/" ++ toString tid ++ "/users") (some "page=1")

/-- The secondary URL fetched by `Team.users` for one membership record `r`:
`buildAccountUrl(ctx, user/${user_id})`. -/
def teamUserUrl (ctx : Ctx) (r : JsVal) : String :=
  buildAccountUrl ctx ("user/" ++ jsTemplate (jsIndex r "user_id")) none

/-- The `Team.users` resolver over an environment `env` mapping a URL to the
parsed JSON the upstream returns for it (caching disabled, so every
`maybeGet` call issues its fetch): the resolved value (`none` models the
`TypeError` thrown by `data.map` on a truthy non-array) paired with the
ordered list of fetched URLs.  `Promise.all` keeps the order of the mapped
membership records. -/
def teamUsers (env : String → JsVal) (ctx : Ctx) (tid : Int) :
    Option JsVal × List String :=
  let u0 := teamUsersUrl ctx tid
  let data := unwrap0 (env u0)
  if truthy data then
    match data with
    | JsVal.arr xs =>
        let urls := xs.map (teamUserUrl ctx)
        (some (JsVal.arr (urls.map (fun u => unwrap0 (env u)))), u0 :: urls)
    | _ => (none, [u0])
  else
    (some data, [u0])

/-- A concrete request context used to instantiate the theorems. -/
def ctx0 : Ctx := ⟨"AT", "PT"⟩

/-- A success envelope `{err: 0, result: v}`. -/
def okEnvelope (v : JsVal) : JsVal :=
  JsVal.obj [("err", JsVal.num 0), ("result", v)]

/-- An upstream error envelope `{err: 1, result: "anything"}`. -/
def errEnvelope : JsVal :=
  JsVal.obj [("err", JsVal.num 1), ("result", JsVal.str "anything")]

/-- The spec's nested success document `{err: 0, result: {a: {b: [1,2,3]}}}`. -/
def nestedDoc : JsVal :=
  okEnvelope (JsVal.obj
    [("a", JsVal.obj [("b", JsVal.arr [JsVal.num 1, JsVal.num 2, JsVal.num 3])])])

/-- A user record carrying both a username and an email. -/
def goodUser : JsVal :=
  JsVal.obj [("username", JsVal.str "x"), ("email", JsVal.str "y")]

/-- A user record with an empty username. -/
def noNameUser : JsVal :=
  JsVal.obj [("username", JsVal.str ""), ("email", JsVal.str "y")]

/-- A user record with a username but an empty email: it lacks the email
only, not both quality fields. -/
def partialUser : JsVal :=
  JsVal.obj [("username", JsVal.str "x"), ("email", JsVal.str "")]

/-- The spec's users document for the quality-filter example. -/
def usersDoc : JsVal :=
  okEnvelope (JsVal.obj [("users", JsVal.arr [goodUser, noNameUser])])

/-- A users document whose only entry is `partialUser`. -/
def partialUserDoc : JsVal :=
  okEnvelope (JsVal.obj [("users", JsVal.arr [partialUser])])

/-- A membership record `{user_id: n}` as returned by `team/{id}/users`. -/
def memberRec (n : Int) : JsVal :=
  JsVal.obj [("user_id", JsVal.num n)]

/-- A user document as returned by `user/{id}`. -/
def userDoc (n : Int) : JsVal :=
  JsVal.obj [("id", JsVal.num n), ("username", JsVal.str ("u" ++ toString n))]

/-- A concrete upstream environment for the fan-out theorem: the membership
endpoint of team 7 returns two records, and each user endpoint returns the
matching user document. -/
def fanoutEnv : String → JsVal := fun u =>
  if u == teamUsersUrl ctx0 7 then
    okEnvelope (JsVal.arr [memberRec 1, memberRec 2])
  else if u == teamUserUrl ctx0 (memberRec 1) then okEnvelope (userDoc 1)
  else if u == teamUserUrl ctx0 (memberRec 2) then okEnvelope (userDoc 2)
  else JsVal.undef

/-- An upstream environment that answers every request with an error
envelope. -/
def errEnv : String → JsVal := fun _ => errEnvelope

theorem drop_min_length {α : Type} (xs : List α) (n : Nat) :
    xs.drop (min n xs.length) = xs.drop n := by
  rcases Nat.le_total n xs.length with h | h
  · rw [Nat.min_eq_left h]
  · rw [Nat.min_eq_right h, List.drop_of_length_le (Nat.le_refl _),
      List.drop_of_length_le h]

theorem jsClamp_nonneg (len i : Int) (h : 0 ≤ i) : jsClamp len i = min i len := by
  unfold jsClamp
  rw [if_neg (by omega)]

theorem jsSlice_nonneg {α : Type} (xs : List α) (s e : Int) (hs : 0 ≤ s)
    (he : 0 ≤ e) :
    jsSlice xs s (some e) = (xs.drop s.toNat).take (e.toNat - s.toNat) := by
  unfold jsSlice
  simp only [Option.getD_some]
  rw [jsClamp_nonneg _ _ hs, jsClamp_nonneg _ _ he]
  rw [show (min s (xs.length : Int)).toNat = min s.toNat xs.length from by omega]
  rw [show (min e (xs.length : Int)).toNat = min e.toNat xs.length from by omega]
  rw [List.drop_take, drop_min_length]
  refine List.take_eq_take.mpr ?_
  simp only [List.length_drop]
  omega

theorem jsSlice_none_nonneg {α : Type} (xs : List α) (s : Int) (hs : 0 ≤ s) :
    jsSlice xs s none = xs.drop s.toNat := by
  unfold jsSlice
  simp only [Option.getD_none]
  rw [jsClamp_nonneg _ _ hs, jsClamp_nonneg _ _ (Int.natCast_nonneg _), min_self]
  rw [show ((xs.length : Int)).toNat = xs.length from by omega]
  rw [List.take_length]
  rw [show (min s (xs.length : Int)).toNat = min s.toNat xs.length from by omega]
  rw [drop_min_length]

/-- Claim C1: for every fetched JSON document whose `err` field is truthy,
the unwrapper of `maybeGet` produces the absence value `null` — an
`Except.ok`, never a thrown exception — regardless of the supplied field
path and filter predicate, and the error envelope is logged. -/
theorem unwrapLog_err_truthy_yields_null (path : Option String)
    (filter : Option (JsVal → JsVal)) (data : JsVal)
    (h : truthy (jsIndex data "err") = true) :
    unwrapLog path filter data = (Except.ok JsVal.null, [data]) := by
  unfold unwrapLog
  rw [if_pos h]

/-- Witness for C1 at the envelope `{err: 1, result: "anything"}` with a
dotted path and the users quality filter supplied. -/
theorem unwrapLog_err_truthy_yields_null_witness :
    truthy (jsIndex errEnvelope "err") = true ∧
    unwrapLog (some "a.b") (some usersFilter) errEnvelope =
      (Except.ok JsVal.null, [errEnvelope]) :=
  ⟨rfl, unwrapLog_err_truthy_yields_null (some "a.b") (some usersFilter)
    errEnvelope rfl⟩

/-- Claim C2: with caching enabled, the first `maybeGet` call for a fresh
(URL, path) key issues the fetch and stores the pending promise under the
key at once, so a second identical call returns the same promise and the
fetch log still holds a single entry; with caching disabled both calls fetch
and obtain distinct promises. -/
theorem maybeGet_cache_dedup (url : String) (path : Option String) :
    ((maybeGet true url path initState).2).cache.lookup (cacheKey url path) =
      some (maybeGet true url path initState).1 ∧
    (maybeGet true url path (maybeGet true url path initState).2).1 =
      (maybeGet true url path initState).1 ∧
    ((maybeGet true url path (maybeGet true url path initState).2).2).fetches =
      [url] ∧
    ((maybeGet false url path (maybeGet false url path initState).2).2).fetches
      = [url, url] ∧
    (maybeGet false url path initState).1 = 0 ∧
    (maybeGet false url path (maybeGet false url path initState).2).1 = 1 := by
  simp [maybeGet, initState, List.lookup]

/-- Claim C9: the cache key of `cache[[url, path]]` is the comma join
`url ++ "," ++ path`, which is not injective: the distinct pairs
`("x", "a,b")` and `("x,a", "b")` share a key, so with caching enabled the
second pair's `maybeGet` returns the first pair's cached promise and issues
no fetch of its own. -/
theorem cacheKey_collision :
    cacheKey "x" (some "a,b") = cacheKey "x,a" (some "b") ∧
    ("x", some "a,b") ≠ (("x,a" : String), (some "b" : Option String)) ∧
    (maybeGet true "x,a" (some "b")
        (maybeGet true "x" (some "a,b") initState).2).1 =
      (maybeGet true "x" (some "a,b") initState).1 ∧
    ((maybeGet true "x,a" (some "b")
        (maybeGet true "x" (some "a,b") initState).2).2).fetches = ["x"] := by
  refine ⟨rfl, by decide, rfl, rfl⟩

/-- Counterexample for C3: with `id = 0` the argument `id` IS supplied (it is
not `none`), yet the resolver raises "Must specify id or counter", because
`!id` treats the number `0` as absent. -/
theorem item_zero_id_counterexample :
    (itemResolve ctx0 (some 0) none).1 =
      Except.error "Must specify id or counter" ∧
    some (0 : Int) ≠ (none : Option Int) := by
  refine ⟨rfl, by decide⟩

/-- Claim C3 (amended): the single-Item resolver raises
"Must specify id or counter" exactly when both `id` and `counter` are
JS-falsy — absent or equal to `0` — and in that case it issues no network
call; any combination with a nonzero argument proceeds without the error. -/
theorem item_requires_truthy_arg (ctx : Ctx) (id counter : Option Int) :
    ((itemResolve ctx id counter).1 =
        Except.error "Must specify id or counter" ↔
      intOptTruthy id = false ∧ intOptTruthy counter = false) ∧
    (intOptTruthy id = false → intOptTruthy counter = false →
      itemResolve ctx id counter =
        (Except.error "Must specify id or counter", [])) := by
  cases hid : intOptTruthy id <;> cases hc : intOptTruthy counter <;>
    simp [itemResolve, hid, hc]

/-- Witness for C3 (amended): with both arguments absent the error is raised
and the fetch log is empty. -/
theorem item_requires_truthy_arg_witness :
    intOptTruthy none = false ∧
    itemResolve ctx0 none none =
      (Except.error "Must specify id or counter", []) :=
  ⟨rfl, (item_requires_truthy_arg ctx0 none none).2 rfl rfl⟩

/-- Claim C8: every built URL is `{base}{endpoint}?access_token={token}`,
followed by `&{query}` exactly when a nonempty query fragment is supplied
(an empty optional string is JS-falsy, indistinguishable from an absent
query); the account builder uses only the context's account token and the
project builder only its project token — each is invariant under changes to
the other token. -/
theorem buildUrl_shape (ctx : Ctx) (ep : String) :
    buildAccountUrl ctx ep none =
      BASE_URL ++ ep ++ "?access_token=" ++ ctx.accountToken ∧
    buildProjectUrl ctx ep none =
      BASE_URL ++ ep ++ "?access_token=" ++ ctx.projectToken ∧
    (∀ q : String, q ≠ "" →
      buildAccountUrl ctx ep (some q) =
        BASE_URL ++ ep ++ "?access_token=" ++ ctx.accountToken ++ "&" ++ q ∧
      buildProjectUrl ctx ep (some q) =
        BASE_URL ++ ep ++ "?access_token=" ++ ctx.projectToken ++ "&" ++ q) ∧
    (∀ (t : String) (q : Option String),
      buildAccountUrl ⟨ctx.accountToken, t⟩ ep q = buildAccountUrl ctx ep q ∧
      buildProjectUrl ⟨t, ctx.projectToken⟩ ep q =
        buildProjectUrl ctx ep q) := by
  refine ⟨?_, ?_, ?_, ?_⟩
  · simp [buildAccountUrl, strTruthy]
  · simp [buildProjectUrl, strTruthy]
  · intro q hq
    constructor <;>
      simp [buildAccountUrl, buildProjectUrl, strTruthy, hq,
        String.append_assoc]
  · intro t q
    exact ⟨rfl, rfl⟩

/-- Witness for C8 with the query fragment `page=1`. -/
theorem buildUrl_shape_witness :
    ("page=1" : String) ≠ "" ∧
    buildAccountUrl ctx0 "users" (some "page=1") =
      BASE_URL ++ "users" ++ "?access_token=" ++ ctx0.accountToken ++ "&" ++
        "page=1" :=
  ⟨by decide, ((buildUrl_shape ctx0 "users").2.2.1 "page=1" (by decide)).1⟩

/-- Counterexample for C4: with both arguments given and `skip = 0`, the
claimed window `[skip+1, skip+1+first)` of `[0,1,2,3,4]` would be `[1,2]`,
but `trunc` returns `[0,1]` because `skip || -1` turns the falsy `0` into
`-1`. -/
theorem trunc_skip_zero_first_counterexample :
    trunc (some 2) (some 0) (some ([0, 1, 2, 3, 4] : List Int)) =
      some [0, 1] ∧
    trunc (some 2) (some 0) (some ([0, 1, 2, 3, 4] : List Int)) ≠
      some [1, 2] := by
  refine ⟨rfl, by decide⟩

/-- Claim C4 (amended), over nonnegative arguments: `trunc` returns the list
unchanged when both arguments are absent; the prefix `[0, first)` when only
`first` is given; everything after index `skip` when only `skip` is given;
the window `[skip+1, skip+1+first)` when both are given with `skip ≥ 1`;
and when both are given with `skip = 0` it behaves as if `skip` were absent,
returning the prefix `[0, first)`.  An absent underlying list passes through
unsliced. -/
theorem trunc_windowing {α : Type} (xs : List α) (f k : Int)
    (fo so : Option Int) :
    trunc none none (some xs) = some xs ∧
    trunc fo so (none : Option (List α)) = none ∧
    (0 ≤ f → trunc (some f) none (some xs) = some (xs.take f.toNat)) ∧
    (0 ≤ k → trunc none (some k) (some xs) =
      some (xs.drop (k + 1).toNat)) ∧
    (0 ≤ f → 1 ≤ k → trunc (some f) (some k) (some xs) =
      some ((xs.drop (k + 1).toNat).take f.toNat)) ∧
    trunc (some f) (some 0) (some xs) = trunc (some f) none (some xs) := by
  refine ⟨rfl, rfl, ?_, ?_, ?_, ?_⟩
  · intro hf
    show some (jsSlice xs (-1 + 1) (some (-1 + 1 + f))) = _
    rw [show (-1 + 1 : Int) = 0 from by omega,
      jsSlice_nonneg xs 0 (0 + f) (le_refl 0) (by omega)]
    simp
  · intro hk
    show some (jsSlice xs (k + 1) none) = _
    rw [jsSlice_none_nonneg xs (k + 1) (by omega)]
  · intro hf hk
    show some (jsSlice xs ((if (k == 0) then -1 else k) + 1)
      (some ((if (k == 0) then -1 else k) + 1 + f))) = _
    rw [if_neg (show ¬((k == 0) = true) from by simpa using by omega)]
    rw [jsSlice_nonneg xs (k + 1) (k + 1 + f) (by omega) (by omega)]
    rw [show (k + 1 + f).toNat - (k + 1).toNat = f.toNat from by omega]
  · rfl

/-- Witness for C4 (amended): slicing `[0,1,2,3,4]` with `first = 2` and
`skip = 1` yields the window `[2,3]`, and with only `skip = 2` yields
`[3,4]`. -/
theorem trunc_windowing_witness :
    (0 : Int) ≤ 2 ∧ (1 : Int) ≤ 1 ∧
    trunc (some 2) (some 1) (some ([0, 1, 2, 3, 4] : List Int)) =
      some ((([0, 1, 2, 3, 4] : List Int).drop ((1 : Int) + 1).toNat).take
        (2 : Int).toNat) ∧
    trunc none (some 2) (some ([0, 1, 2, 3, 4] : List Int)) =
      some (([0, 1, 2, 3, 4] : List Int).drop ((2 : Int) + 1).toNat) :=
  ⟨by decide, by decide,
    (trunc_windowing ([0, 1, 2, 3, 4] : List Int) 2 1 none none).2.2.2.2.1
      (by decide) (by decide),
    (trunc_windowing ([0, 1, 2, 3, 4] : List Int) 2 2 none none).2.2.2.1
      (by decide)⟩

/-- Claim C10: `trunc` treats `skip = 0` inconsistently between branches —
with `first` absent it drops the head of the list (`data.slice(1)`), while
with `first` present it coincides with `skip` absent (because `skip || -1`
evaluates to `-1`), so the returned window starts at index 0. -/
theorem trunc_skip_zero_inconsistency {α : Type} (x : α) (xs : List α)
    (f : Int) :
    trunc none (some 0) (some (x :: xs)) = some xs ∧
    trunc (some f) (some 0) (some (x :: xs)) =
      trunc (some f) none (some (x :: xs)) := by
  constructor
  · show some (jsSlice (x :: xs) (0 + 1) none) = _
    rw [jsSlice_none_nonneg (x :: xs) (0 + 1) (by omega)]
    rfl
  · rfl

/-- Claim C5: when the membership fetch of `Team.users` unwraps to a list of
records, the resolver issues one secondary user fetch per record — the fetch
log is the primary URL followed by exactly `n` secondary URLs in membership
order — and assembles the unwrapped secondary results in that same order;
when the membership fetch unwraps to `null`, the resolver short-circuits to
that absence with zero secondary fetches. -/
theorem teamUsers_fanout (env : String → JsVal) (ctx : Ctx) (tid : Int)
    (xs : List JsVal) :
    (unwrap0 (env (teamUsersUrl ctx tid)) = JsVal.arr xs →
      teamUsers env ctx tid =
        (some (JsVal.arr (xs.map (fun r => unwrap0 (env (teamUserUrl ctx r))))),
          teamUsersUrl ctx tid :: xs.map (teamUserUrl ctx)) ∧
      ((teamUsers env ctx tid).2).length = 1 + xs.length) ∧
    (unwrap0 (env (teamUsersUrl ctx tid)) = JsVal.null →
      teamUsers env ctx tid = (some JsVal.null, [teamUsersUrl ctx tid])) := by
  constructor
  · intro h
    have hmain : teamUsers env ctx tid =
        (some (JsVal.arr (xs.map (fun r => unwrap0 (env (teamUserUrl ctx r))))),
          teamUsersUrl ctx tid :: xs.map (teamUserUrl ctx)) := by
      simp only [teamUsers]
      rw [h]
      simp [truthy, List.map_map, Function.comp]
    refine ⟨hmain, ?_⟩
    rw [hmain]
    simp [Nat.add_comm]
  · intro h
    simp only [teamUsers]
    rw [h]
    simp [truthy]

/-- Witness for C5: a membership list of two records yields the primary fetch
plus two secondary fetches in order with the assembled user documents, and an
error envelope on the membership fetch yields absence with no secondary
fetch. -/
theorem teamUsers_fanout_witness :
    unwrap0 (fanoutEnv (teamUsersUrl ctx0 7)) =
      JsVal.arr [memberRec 1, memberRec 2] ∧
    teamUsers fanoutEnv ctx0 7 =
      (some (JsVal.arr ([memberRec 1, memberRec 2].map
          (fun r => unwrap0 (fanoutEnv (teamUserUrl ctx0 r))))),
        teamUsersUrl ctx0 7 ::
          [memberRec 1, memberRec 2].map (teamUserUrl ctx0)) ∧
    unwrap0 (errEnv (teamUsersUrl ctx0 3)) = JsVal.null ∧
    teamUsers errEnv ctx0 3 = (some JsVal.null, [teamUsersUrl ctx0 3]) :=
  ⟨rfl,
    ((teamUsers_fanout fanoutEnv ctx0 7 [memberRec 1, memberRec 2]).1 rfl).1,
    rfl, (teamUsers_fanout errEnv ctx0 3 []).2 rfl⟩

theorem segsReduce_undef (segs : List String) :
    segsReduce segs JsVal.undef = JsVal.undef := by
  induction segs with
  | nil => rfl
  | cons q rest ih => exact ih

/-- Claim C7: on the success envelope `{err: 0, result: {a: {b: [1,2,3]}}}`
the unwrapper resolves the dotted path `a.b` to `[1,2,3]` and the path
`a.missing` to absence, and in general once a prefix of the path segments
has resolved to the missing value, every longer path short-circuits to that
absence. -/
theorem unwrap_dotted_path :
    unwrap (some "a.b") none nestedDoc =
      Except.ok (JsVal.arr [JsVal.num 1, JsVal.num 2, JsVal.num 3]) ∧
    unwrap (some "a.missing") none nestedDoc = Except.ok JsVal.undef ∧
    (∀ (segs1 segs2 : List String) (res : JsVal),
      segsReduce segs1 res = JsVal.undef →
      segsReduce (segs1 ++ segs2) res = JsVal.undef) := by
  refine ⟨rfl, rfl, ?_⟩
  intro s1 s2 res h
  calc segsReduce (s1 ++ s2) res = segsReduce s2 (segsReduce s1 res) := by
        simp [segsReduce, List.foldl_append]
    _ = segsReduce s2 JsVal.undef := by rw [h]
    _ = JsVal.undef := segsReduce_undef s2

/-- Witness for C7: the segments `["a", "missing"]` resolve to absence on the
nested result, and extending them by a further segment stays absent. -/
theorem unwrap_dotted_path_witness :
    segsReduce ["a", "missing"] (jsIndex nestedDoc "result") = JsVal.undef ∧
    segsReduce (["a", "missing"] ++ ["deeper"])
      (jsIndex nestedDoc "result") = JsVal.undef :=
  ⟨rfl, unwrap_dotted_path.2.2 ["a", "missing"] ["deeper"] _ rfl⟩

/-- Counterexample for C6: the user `{username: "x", email: ""}` lacks only
the email — not both quality fields — yet the users quality filter removes
it, so the filter does not remove exactly the users lacking both username
and email. -/
theorem usersFilter_partial_counterexample :
    unwrap (some "users") (some usersFilter) partialUserDoc =
      Except.ok (JsVal.arr []) ∧
    unwrap (some "users") (some usersFilter) partialUserDoc ≠
      Except.ok (JsVal.arr [partialUser]) := by
  refine ⟨rfl, ?_⟩
  intro hcontra
  rw [show unwrap (some "users") (some usersFilter) partialUserDoc =
    Except.ok (JsVal.arr []) from rfl] at hcontra
  simp at hcontra

/-- Claim C6 (amended): when the unwrapped result is a list, the optional
filter predicate removes exactly the entries on which the predicate is
falsy — in both the no-path and the dotted-path branch — and the users-field
quality filter keeps exactly the users with both a truthy username and a
truthy email, so filtering `[{username: "x", email: "y"},
{username: "", email: "y"}]` yields only the first element. -/
theorem unwrap_filter_on_list (f : JsVal → JsVal) (xs : List JsVal)
    (data : JsVal) (p : String) :
    (truthy (jsIndex data "err") = false →
      (jsIndex data "result" = JsVal.arr xs →
        unwrap none (some f) data =
          Except.ok (JsVal.arr (xs.filter (fun x => truthy (f x))))) ∧
      (strTruthy (some p) = true →
        pathReduce p (jsIndex data "result") = JsVal.arr xs →
        unwrap (some p) (some f) data =
          Except.ok (JsVal.arr (xs.filter (fun x => truthy (f x)))))) ∧
    unwrap (some "users") (some usersFilter) usersDoc =
      Except.ok (JsVal.arr [goodUser]) := by
  refine ⟨?_, rfl⟩
  intro herr
  constructor
  · intro hres
    simp only [unwrap, unwrapLog, herr, strTruthy]
    simp only [Bool.false_eq_true, if_false]
    rw [hres]
    rfl
  · intro hp hres
    simp only [unwrap, unwrapLog, herr, hp, Option.getD_some]
    simp only [Bool.false_eq_true, Bool.true_eq_false, if_false]
    rw [hres]
    rfl

/-- Witness for C6 (amended) in both branches at concrete documents. -/
theorem unwrap_filter_on_list_witness :
    truthy (jsIndex usersDoc "err") = false ∧
    strTruthy (some "users") = true ∧
    pathReduce "users" (jsIndex usersDoc "result") =
      JsVal.arr [goodUser, noNameUser] ∧
    unwrap (some "users") (some usersFilter) usersDoc =
      Except.ok (JsVal.arr
        ([goodUser, noNameUser].filter (fun x => truthy (usersFilter x)))) :=
  ⟨rfl, rfl, rfl,
    ((unwrap_filter_on_list usersFilter [goodUser, noNameUser] usersDoc
      "users").1 rfl).2 rfl rfl⟩
